import Mathlib

/-!
Verification development for the StyleMimic application core
(`src/services/geminiService.ts`): the key-rotation executor and the
prompt-construction layer for the Generate and Refine operations.

The TypeScript source is shallowly embedded: JS numbers are modelled as
rationals, `Math.round` as floor of `x + 1/2`, optional object fields as
`Option`, thrown errors as an explicit outcome constructor carrying the
error message, and the asynchronous `delay` calls as a recorded list of
requested delay durations (milliseconds).  `Math.random()` jitter is
modelled by an arbitrary jitter stream passed as a parameter.
-/

namespace StyleMimic

/-! ### JS-semantics helpers -/

/-- Substring occurrence over character lists (structural helper). -/
def hasSubList (pat : List Char) : List Char → Bool
  | [] => pat.isEmpty
  | c :: rest => pat.isPrefixOf (c :: rest) || hasSubList pat rest

/-- JS `String.prototype.includes`: the pattern occurs somewhere in `s`
(and the empty pattern always occurs). -/
def jsIncludes (s pat : String) : Bool :=
  hasSubList pat.data s.data

/-- JS `String.prototype.trim`: strip leading and trailing whitespace. -/
def jsTrim (s : String) : String :=
  ⟨((s.data.dropWhile Char.isWhitespace).reverse.dropWhile Char.isWhitespace).reverse⟩

/-- JS `x || d` where `x` is a possibly-absent string: `undefined` and the
empty string are falsy. -/
def jsOrStr (x : Option String) (d : String) : String :=
  match x with
  | some s => if s = "" then d else s
  | none => d

/-- JS `x || d` where `x` is a possibly-absent array: arrays are always
truthy (even when empty), so only absence selects the default. -/
def jsOrList (x : Option (List String)) (d : List String) : List String :=
  x.getD d

/-- JS `x || d` for a number: `0` is falsy. -/
def jsOrNum (x d : ℚ) : ℚ :=
  if x = 0 then d else x

/-- JS `Math.round` for non-negative arguments: round half away from zero,
i.e. floor of `x + 1/2`. -/
def jsRound (x : ℚ) : ℤ :=
  ⌊x + 1 / 2⌋

/-- JS template-literal interpolation of a possibly-`undefined` string. -/
def jsUndef (x : Option String) : String :=
  x.getD "undefined"

/-! ### Key rotation executor (`executeWithKeyRotation`)

The operation passed to the executor is modelled as a function from the
global invocation counter to its outcome, so an operation may succeed or
fail differently on each invocation.  The status callback is modelled by
recording the `(key, status)` pairs it would be invoked with, and the
backoff waits by recording the requested durations `2000 + jitter n`. -/

/-- Result of one invocation of the wrapped operation: a value, or a
thrown error carrying its message (`error.message || error.toString()`). -/
inductive OpResult (α : Type) where
  | ok (value : α)
  | err (msg : String)
deriving DecidableEq

/-- Status values passed to the executor's `onStatusUpdate` callback. -/
inductive KeyStatus where
  | active
  | expired
deriving DecidableEq

/-- ERROR TYPE 1 of the source: server overload, retried on the same key. -/
def isTransientMsg (m : String) : Bool :=
  jsIncludes m "503" || jsIncludes m "overloaded" || jsIncludes m "Internal error"

/-- ERROR TYPE 2 of the source: quota exhaustion, rotates to the next key. -/
def isQuotaMsg (m : String) : Bool :=
  jsIncludes m "429" || jsIncludes m "RESOURCE_EXHAUSTED" || jsIncludes m "quota"

/-- Message of the error thrown when no key is available (line 73). -/
def noCredentialsMsg : String :=
  "No API Keys provided. Please add at least one Gemini API Key."

/-- Message of the fallback error thrown after the key loop when no error
was recorded (line 122). -/
def allKeysFailedMsg : String :=
  "All provided API Keys failed or Server is currently unavailable."

/-- Final outcome of the executor: a returned value or a thrown error. -/
inductive ExecOutcome (α : Type) where
  | ok (value : α)
  | threw (msg : String)
deriving DecidableEq

/-- Observable result of one executor run: outcome, number of operation
invocations, status-callback invocations in order, and requested backoff
delays in order (milliseconds). -/
structure ExecResult (α : Type) where
  outcome : ExecOutcome α
  calls : ℕ
  events : List (String × KeyStatus)
  delays : List ℚ
deriving DecidableEq

/-- How the per-key retry loop (`while (retries > 0)`) ends. -/
inductive KeyOutcome (α : Type) where
  | done (value : α)
  | fatal (msg : String)
  | giveUp (msg : String)
  | noAttempt

/-- Trace of one run of the per-key retry loop. -/
structure KeyStep (α : Type) where
  outcome : KeyOutcome α
  calls : ℕ
  events : List (String × KeyStatus)
  delays : List ℚ

/-- The per-key retry loop: up to `retries` attempts on one key.  A
transient error decrements the budget and, unless the budget is now zero,
waits `2000 + jitter calls` ms and retries; a quota error reports the key
expired and gives up immediately; success reports the key active and
returns; anything else is rethrown. -/
def tryKey (op : ℕ → OpResult α) (jitter : ℕ → ℚ) (key : String) :
    ℕ → ℕ → KeyStep α
  | 0, calls => ⟨.noAttempt, calls, [], []⟩
  | r + 1, calls =>
    match op calls with
    | .ok v => ⟨.done v, calls + 1, [(key, .active)], []⟩
    | .err m =>
      if isTransientMsg m then
        if r = 0 then
          ⟨.giveUp m, calls + 1, [], []⟩
        else
          let s := tryKey op jitter key r (calls + 1)
          ⟨s.outcome, s.calls, s.events, (2000 + jitter calls) :: s.delays⟩
      else if isQuotaMsg m then
        ⟨.giveUp m, calls + 1, [(key, .expired)], []⟩
      else
        ⟨.fatal m, calls + 1, [], []⟩

/-- The key loop (`for (const apiKey of keysToUse)`): blank keys are
skipped; each usable key gets a retry budget of 3; a key that gives up
records its error as `lastError` and the loop moves on; after the loop the
recorded `lastError` (or the aggregate fallback message) is thrown. -/
def rotateKeys (op : ℕ → OpResult α) (jitter : ℕ → ℚ) :
    List String → ℕ → Option String → ExecResult α
  | [], calls, lastError => ⟨.threw (lastError.getD allKeysFailedMsg), calls, [], []⟩
  | key :: rest, calls, lastError =>
    if jsTrim key = "" then rotateKeys op jitter rest calls lastError
    else
      let s := tryKey op jitter key 3 calls
      match s.outcome with
      | .done v => ⟨.ok v, s.calls, s.events, s.delays⟩
      | .fatal m => ⟨.threw m, s.calls, s.events, s.delays⟩
      | .giveUp m =>
        let r := rotateKeys op jitter rest s.calls (some m)
        ⟨r.outcome, r.calls, s.events ++ r.events, s.delays ++ r.delays⟩
      | .noAttempt =>
        let r := rotateKeys op jitter rest s.calls lastError
        ⟨r.outcome, r.calls, s.events ++ r.events, s.delays ++ r.delays⟩

/-- `executeWithKeyRotation`: if the supplied key list is empty, fall back
to the environment key (split on commas and trimmed) when one exists and
is non-empty; if still empty, throw `noCredentialsMsg`; otherwise run the
rotation loop. -/
def executeWithKeyRotation (apiKeys : List String) (envKey : Option String)
    (op : ℕ → OpResult α) (jitter : ℕ → ℚ) : ExecResult α :=
  let keysToUse :=
    if apiKeys.isEmpty then
      match envKey with
      | some e => if e = "" then [] else (e.splitOn ",").map jsTrim
      | none => []
    else apiKeys
  if keysToUse.isEmpty then ⟨.threw noCredentialsMsg, 0, [], []⟩
  else rotateKeys op jitter keysToUse 0 none

/-! ### Data model (`src/types.ts`, plus the optional forensic fields the
analysis schema produces and `generateScript` consumes through optional
chaining: `decisionProfile`, `moralCompass`) -/

/-- Six bounded numeric dials (0-100). -/
structure StyleMetrics where
  humor : ℚ
  logic : ℚ
  emotion : ℚ
  complexity : ℚ
  pacing : ℚ
  informality : ℚ

/-- Advanced forensic data; `verbalTics` is optional. -/
structure StyleDNA where
  lexicalSignature : String
  syntaxPattern : String
  rhetoricalDevices : String
  cognitivePattern : String
  narrativeStyle : String
  emotionalCurve : String
  verbalTics : Option String

/-- One section of a profile's structure skeleton. -/
structure StructuralSection where
  sectionName : String
  estimatedWords : ℚ
  purpose : String

/-- Physical structure data of the analysed text. -/
structure QuantitativeAnalysis where
  totalWordCount : ℚ
  paragraphCount : ℚ
  averageWordsPerParagraph : ℚ
  sentenceCount : ℚ
  subHeaderStyle : String
  structureSkeleton : List StructuralSection

/-- Habitual intro/outro/transition anchors. -/
structure StructuralPatterns where
  introHabits : String
  introPhrases : List String
  transitionPhrases : List String
  outroHabits : String
  outroPhrases : List String

/-- How the author decides what to include or omit (analysis schema field,
accessed through `profile.decisionProfile?.` in `generateScript`). -/
structure DecisionProfile where
  decisionMakingBehavior : String
  argumentSelectionBias : String
  omissionPatterns : String
  repeatedErrors : String

/-- Moral stance descriptors (analysis schema field, accessed through
`profile.moralCompass?.` in `generateScript`). -/
structure MoralCompass where
  description : String
  empathyLevel : String
  judgmentReflex : String

/-- The persisted unit of style knowledge.  Fields the generation code
accesses through optional chaining or `||` defaulting are `Option`s. -/
structure StyleProfile where
  id : String
  name : String
  description : String
  metrics : StyleMetrics
  signaturePhrases : Option (List String)
  toneDescription : String
  structurePattern : String
  typicalSectionLength : ℚ
  contentType : String
  styleDNA : Option StyleDNA
  styleSamples : Option (List String)
  quantitativeAnalysis : Option QuantitativeAnalysis
  structuralPatterns : Option StructuralPatterns
  decisionProfile : Option DecisionProfile
  moralCompass : Option MoralCompass

/-- One section of a user-supplied custom writing structure, as consumed by
`generateScript` (`sec.name`, `sec.estimatedWords`, `sec.instruction`). -/
structure CustomSection where
  name : String
  estimatedWords : ℚ
  instruction : String

/-- A custom blueprint: an ordered sequence of sections. -/
structure WritingStructure where
  id : String
  name : String
  sections : List CustomSection

/-- Ephemeral location candidate. -/
structure LocationSuggestion where
  id : String
  name : String
  description : String
  isSelected : Bool

/-! ### Generation (`generateScript` in `src/services/geminiService.ts`) -/

/-- Clamp of the UI creativity level to the clone temperature range:
`Math.max(0.4, Math.min(0.75, creativityLevel * 0.5))`. -/
def effectiveTemp (creativityLevel : ℚ) : ℚ :=
  max (4 / 10) (min (75 / 100) (creativityLevel * (5 / 10)))

/-- `INFLATION_FACTOR = targetLength > 800 ? 1.2 : 1.1` (current
`src/services/geminiService.ts`, line 345). -/
def inflationFactor (targetLength : ℚ) : ℚ :=
  if targetLength > 800 then 12 / 10 else 11 / 10

/-- `inflatedTotalTarget = Math.round(targetLength * INFLATION_FACTOR)`. -/
def inflatedTotalTarget (targetLength : ℚ) : ℤ :=
  jsRound (targetLength * inflationFactor targetLength)

/-- `INFLATION_FACTOR = targetLength > 800 ? 1.3 : 1.1` of the earlier
`generateScript` revision kept in the repository (src/unnamed/part_001,
line 679). -/
def inflationFactorRev (targetLength : ℚ) : ℚ :=
  if targetLength > 800 then 13 / 10 else 11 / 10

/-- Inflated target of the earlier revision (src/unnamed/part_001). -/
def inflatedTotalTargetRev (targetLength : ℚ) : ℤ :=
  jsRound (targetLength * inflationFactorRev targetLength)

/-- One entry of the structural blueprint sent to the model.  The three
construction branches populate different JSON fields; absent fields are
`none` (omitted by serialization, as `JSON.stringify` omits `undefined`). -/
structure BlueprintSection where
  section_name : String
  internal_guide : Option String
  target_words : ℤ
  instruction : Option String
  purpose : Option String

/-- `rawStructureTotal`: sum of `sec.estimatedWords || 100` over the custom
structure's sections. -/
def rawStructureTotal (cs : WritingStructure) : ℚ :=
  cs.sections.foldl (fun sum sec => sum + jsOrNum sec.estimatedWords 100) 0

/-- `scale = rawStructureTotal > 0 ? inflatedTotalTarget / rawStructureTotal : 1`. -/
def customScale (cs : WritingStructure) (inflated : ℤ) : ℚ :=
  if rawStructureTotal cs > 0 then (inflated : ℚ) / rawStructureTotal cs else 1

/-- CUSTOM_STRUCTURE branch of the blueprint construction. -/
def customBlueprint (cs : WritingStructure) (inflated : ℤ) : List BlueprintSection :=
  cs.sections.map fun sec =>
    { section_name := sec.name
      internal_guide := none
      target_words := jsRound (jsOrNum sec.estimatedWords 100 * customScale cs inflated)
      instruction := some sec.instruction
      purpose := none }

/-- `headersMentioned = subHeaderStyle.length > 3 &&
!subHeaderStyle.toLowerCase().includes("none")`. -/
def headersMentioned (subHeaderStyle : String) : Bool :=
  decide (subHeaderStyle.length > 3) && !(jsIncludes subHeaderStyle.toLower "none")

/-- AUTO_DNA branch of the blueprint construction: the profile skeleton is
rescaled to the inflated target with a 50-word floor per section. -/
def autoBlueprint (qa : QuantitativeAnalysis) (inflated : ℤ) : List BlueprintSection :=
  let originalTotal := jsOrNum qa.totalWordCount 1000
  let scaleFactor := (inflated : ℚ) / originalTotal
  qa.structureSkeleton.map fun sec =>
    { section_name := sec.sectionName
      internal_guide := some sec.sectionName
      target_words := max 50 (jsRound (sec.estimatedWords * scaleFactor))
      instruction := none
      purpose := some sec.purpose }

/-- Fallback branch: one catch-all section spanning the inflated target. -/
def fallbackBlueprint (inflated : ℤ) : List BlueprintSection :=
  [{ section_name := "Flow"
     internal_guide := none
     target_words := inflated
     instruction := none
     purpose := some "Natural stream of consciousness" }]

/-- Execution mode, header flag and blueprint chosen by `generateScript`. -/
structure StructureSetup where
  executionMode : String
  enforceHeaders : Bool
  blueprint : List BlueprintSection

/-- The `if (customStructure) / else if (profile.quantitativeAnalysis &&
...structureSkeleton) / else` chain of `generateScript` (lines 351-382). -/
def structureSetup (profile : StyleProfile) (customStructure : Option WritingStructure)
    (inflated : ℤ) : StructureSetup :=
  match customStructure with
  | some cs => ⟨"CUSTOM_STRUCTURE", true, customBlueprint cs inflated⟩
  | none =>
    match profile.quantitativeAnalysis with
    | some qa =>
      ⟨"AUTO_DNA", headersMentioned (jsOrStr (some qa.subHeaderStyle) ""),
        autoBlueprint qa inflated⟩
    | none => ⟨"AUTO_DNA", false, fallbackBlueprint inflated⟩

/-- `locationContext`: joined name/description pairs, or "None". -/
def locationContext (selectedLocations : List LocationSuggestion) : String :=
  if selectedLocations.length > 0 then
    String.intercalate "; " (selectedLocations.map fun l => l.name ++ ": " ++ l.description)
  else "None"

/-- The reduced "Internal Mind" passed to the model in place of the full
profile (COGNITIVE CAGING, `generateScript` lines 392-404). -/
structure CognitiveCage where
  world_view : String
  blind_spots : String
  biases : String
  thinking_style : String
  verbal_tics : String
  available_vocabulary : List String
  intro_habit : String
  outro_habit : String
  intro_anchors : List String
  outro_anchors : List String

/-- Derivation of the cognitive cage from a profile, with the source's
`||` defaults for absent optional fields. -/
def cognitiveCage (profile : StyleProfile) : CognitiveCage :=
  { world_view := jsOrStr (profile.moralCompass.map fun m => m.description) "Neutral"
    blind_spots := jsOrStr (profile.decisionProfile.map fun d => d.omissionPatterns) "None"
    biases := jsOrStr (profile.decisionProfile.map fun d => d.argumentSelectionBias) "Balanced"
    thinking_style := jsOrStr (profile.styleDNA.map fun d => d.cognitivePattern) "Standard"
    verbal_tics := jsOrStr (profile.styleDNA.bind fun d => d.verbalTics) "None"
    available_vocabulary := jsOrList profile.signaturePhrases []
    intro_habit := jsOrStr (profile.structuralPatterns.map fun s => s.introHabits) "Standard"
    outro_habit := jsOrStr (profile.structuralPatterns.map fun s => s.outroHabits) "Standard"
    intro_anchors := jsOrList (profile.structuralPatterns.map fun s => s.introPhrases) []
    outro_anchors := jsOrList (profile.structuralPatterns.map fun s => s.outroPhrases) [] }

/-- `input` block of the generation task definition. -/
structure GenerationInput where
  topic : String
  cognitive_state : String
  target_length : ℤ
  locations : String
  execution_mode : String

/-- The JSON task specification serialized into the PHASE 2 prompt. -/
structure GenerationTaskDefinition where
  task : String
  input : GenerationInput
  cognitive_cage : CognitiveCage
  blueprint : List BlueprintSection
  formatting_mode : String
  execution_rules : List String

/-- The `execution_rules` array, whose last entry depends on the header
flag. -/
def executionRules (enforceHeaders : Bool) : List String :=
  [ "Thinking must occur strictly within the \x27cognitive_cage\x27.",
    "Apply \x27blind_spots\x27 aggressively. Do not mention things the author ignores.",
    "Insert \x27verbal_tics\x27 and \x27available_vocabulary\x27 ORGANICALLY and PROBABILISTICALLY. Do not force them if they don\x27t fit the flow.",
    "Start exactly according to \x27intro_habit\x27 / \x27intro_anchors\x27.",
    "End exactly according to \x27outro_habit\x27 / \x27outro_anchors\x27.",
    "Do NOT act as a helpful AI. Do not summarize or conclude unless the persona does.",
    if enforceHeaders then
      "FORMATTING: Use Markdown Headers (##) for sections."
    else
      "FORMATTING: Do NOT use Headers. Output as a continuous text stream (or paragraphs) suitable for the author\x27s style." ]

/-- Assembly of the generation task definition (`generateScript` lines
406-438).  `contentType` and `creativityLevel` are accepted to mirror the
source signature; neither reaches the payload. -/
def generationTaskDefinition (profile : StyleProfile) (topic : String)
    (_contentType : String) (selectedLocations : List LocationSuggestion)
    (targetLength : ℚ) (_creativityLevel : ℚ)
    (customStructure : Option WritingStructure) : GenerationTaskDefinition :=
  let inflated := inflatedTotalTarget targetLength
  let setup := structureSetup profile customStructure inflated
  { task := "EXECUTE_STYLE_MODEL"
    input :=
      { topic := topic
        cognitive_state := "Authentic Simulation"
        target_length := inflated
        locations := locationContext selectedLocations
        execution_mode := setup.executionMode }
    cognitive_cage := cognitiveCage profile
    blueprint := setup.blueprint
    formatting_mode :=
      if setup.enforceHeaders then "VISIBLE_HEADERS_ALLOWED" else "HIDDEN_STRUCTURE_ONLY"
    execution_rules := executionRules setup.enforceHeaders }

/-! ### Serialization of the task definition into the prompt

The source embeds `JSON.stringify(generationTaskDefinition, null, 2)`
between a fixed header and footer.  The renderer below serializes the same
object shape in the same field order, omitting absent (`undefined`)
fields as `JSON.stringify` does; pretty-printing whitespace is not
reproduced.  The prompt is a pure function of the task definition. -/

/-- JSON string escaping (backslash and double quote). -/
def jsonEscape (s : String) : String :=
  (s.replace "\\" "\\\\").replace "\"" "\\\""

/-- Render a JSON string literal. -/
def jsonStr (s : String) : String :=
  "\"" ++ jsonEscape s ++ "\""

/-- Render a JSON array of strings. -/
def jsonStrArr (xs : List String) : String :=
  "[" ++ String.intercalate "," (xs.map jsonStr) ++ "]"

/-- Render one key/value pair. -/
def jsonKV (k v : String) : String :=
  jsonStr k ++ ":" ++ v

/-- Render a JSON object from its (already rendered) key/value pairs. -/
def jsonObj (fields : List String) : String :=
  "\x7b" ++ String.intercalate "," fields ++ "\x7d"

/-- Render one blueprint section, omitting absent fields, in the field
order of the corresponding object literal. -/
def renderBlueprintSection (b : BlueprintSection) : String :=
  jsonObj <|
    [jsonKV "section_name" (jsonStr b.section_name)]
    ++ (match b.internal_guide with
        | some g => [jsonKV "internal_guide" (jsonStr g)]
        | none => [])
    ++ [jsonKV "target_words" (toString b.target_words)]
    ++ (match b.instruction with
        | some i => [jsonKV "instruction" (jsonStr i)]
        | none => [])
    ++ (match b.purpose with
        | some p => [jsonKV "purpose" (jsonStr p)]
        | none => [])

/-- Render the cognitive cage object. -/
def renderCognitiveCage (c : CognitiveCage) : String :=
  jsonObj
    [ jsonKV "world_view" (jsonStr c.world_view),
      jsonKV "blind_spots" (jsonStr c.blind_spots),
      jsonKV "biases" (jsonStr c.biases),
      jsonKV "thinking_style" (jsonStr c.thinking_style),
      jsonKV "verbal_tics" (jsonStr c.verbal_tics),
      jsonKV "available_vocabulary" (jsonStrArr c.available_vocabulary),
      jsonKV "intro_habit" (jsonStr c.intro_habit),
      jsonKV "outro_habit" (jsonStr c.outro_habit),
      jsonKV "intro_anchors" (jsonStrArr c.intro_anchors),
      jsonKV "outro_anchors" (jsonStrArr c.outro_anchors) ]

/-- Render the whole task definition in the object-literal field order. -/
def renderTaskDefinition (td : GenerationTaskDefinition) : String :=
  jsonObj
    [ jsonKV "task" (jsonStr td.task),
      jsonKV "input" <| jsonObj
        [ jsonKV "topic" (jsonStr td.input.topic),
          jsonKV "cognitive_state" (jsonStr td.input.cognitive_state),
          jsonKV "target_length" (toString td.input.target_length),
          jsonKV "context_data" <| jsonObj
            [ jsonKV "locations" (jsonStr td.input.locations),
              jsonKV "execution_mode" (jsonStr td.input.execution_mode) ] ],
      jsonKV "cognitive_cage" (renderCognitiveCage td.cognitive_cage),
      jsonKV "structural_constraints" <| jsonObj
        [ jsonKV "blueprint"
            ("[" ++ String.intercalate "," (td.blueprint.map renderBlueprintSection) ++ "]"),
          jsonKV "formatting_mode" (jsonStr td.formatting_mode) ],
      jsonKV "execution_rules" (jsonStrArr td.execution_rules) ]

/-- The PHASE 2 user prompt: fixed frame around the serialized task. -/
def generationPrompt (profile : StyleProfile) (topic : String)
    (contentType : String) (selectedLocations : List LocationSuggestion)
    (targetLength : ℚ) (creativityLevel : ℚ)
    (customStructure : Option WritingStructure) : String :=
  "\nPHASE 2 — GENERATION\n\nYOUR MISSION IS DEFINED BY THE FOLLOWING JSON TASK SPECIFICATION:\n\"\"\"\n"
  ++ renderTaskDefinition
      (generationTaskDefinition profile topic contentType selectedLocations
        targetLength creativityLevel customStructure)
  ++ "\n\"\"\"\n\nOUTPUT:\nExecute the task. Return ONLY the generated text in ENGLISH.\n"

/-! ### Metric tuning and the Refine prompt -/

/-- `getMetricTuningInstructions`: each extreme metric band contributes one
instruction, in source push order. -/
def getMetricTuningInstructions (metrics : StyleMetrics) : List String :=
  (if metrics.humor ≥ 80 then ["MODE: COMEDY CLUB. Aggressively use satire, irony."]
   else if metrics.humor ≤ 20 then ["MODE: SERIOUS. Zero jokes."]
   else [])
  ++ (if metrics.logic ≥ 80 then ["COGNITIVE STYLE: ANALYTICAL. Structure arguments clearly."]
      else [])
  ++ (if metrics.emotion ≥ 80 then ["COGNITIVE STYLE: VISCERAL. Focus on sensory experience."]
      else [])
  ++ (if metrics.complexity ≥ 80 then ["VOCABULARY: ACADEMIC. Use precise terminology."]
      else if metrics.complexity ≤ 30 then ["VOCABULARY: SIMPLE. ELI5 style."]
      else [])
  ++ (if metrics.pacing ≥ 80 then ["RHYTHM: STACCATO. Fast, short sentences."] else [])
  ++ (if metrics.informality ≥ 80 then ["REGISTER: CASUAL/SLANG."] else [])

/-- The verbal-tics slot of the Refine prompt:
`${profile.styleDNA?.verbalTics}` renders "undefined" when the chain is
absent (no default is supplied there, unlike the cognitive cage). -/
def refineVerbalTics (profile : StyleProfile) : String :=
  jsUndef (profile.styleDNA.bind fun d => d.verbalTics)

/-- The Refine prompt (`refineText` lines 570-588), with the template
literal's interpolations in source order. -/
def refinePrompt (originalText instruction : String) (profile : StyleProfile) : String :=
  "You are editing a script to match the specific persona of \"" ++ profile.name
  ++ "\".\n\n**PERSONA GUIDELINES:**\n- Voice: " ++ profile.toneDescription
  ++ "\n- Verbal Tics: " ++ refineVerbalTics profile
  ++ "\n- Style Rules: " ++ String.intercalate "; " (getMetricTuningInstructions profile.metrics)
  ++ "\n- **LANGUAGE:** ENGLISH.\n\n**ORIGINAL TEXT:**\n\"" ++ originalText
  ++ "\"\n\n**YOUR TASK:**\nRewrite the text above. " ++ instruction
  ++ "\n\n**CONSTRAINT:**\nKeep the meaning, but change the FORM to match the persona perfectly.\nOutput ONLY the rewritten text in ENGLISH."

/-! ### Response post-processing for Generate and Refine -/

/-- `generateScript` line 465: `return response.text || "Failed to
generate script."` — empty or missing text yields the fixed sentinel, any
other text is returned unchanged (no trimming). -/
def generateResult (responseText : Option String) : String :=
  jsOrStr responseText "Failed to generate script."

/-- `refineText` line 599: `return response.text ? response.text.trim() :
originalText` — non-empty text is trimmed, empty or missing text falls
back to the caller's original input. -/
def refineResult (responseText : Option String) (originalText : String) : String :=
  match responseText with
  | some s => if s = "" then originalText else jsTrim s
  | none => originalText

/-! ### Executor lemmas -/

/-- On an operation that always fails with the same transient message, the
per-key loop makes exactly 3 attempts, emits no status event, waits twice,
and gives the error to the rotation loop. -/
theorem tryKey_all_transient {α : Type} (op : ℕ → OpResult α) (jitter : ℕ → ℚ)
    (key : String) (m : String) (calls : ℕ)
    (hop : ∀ n, op n = .err m) (htr : isTransientMsg m = true) :
    tryKey op jitter key 3 calls =
      ⟨.giveUp m, calls + 3, [], [2000 + jitter calls, 2000 + jitter (calls + 1)]⟩ := by
  simp [tryKey, hop, htr]

/-- Rotation over an always-transient operation: 3 calls per usable key,
no status events, two waits per key, ending in the recorded error (or the
aggregate message when there was no key at all). -/
theorem rotateKeys_all_transient {α : Type} (op : ℕ → OpResult α) (jitter : ℕ → ℚ)
    (m : String) (hop : ∀ n, op n = .err m) (htr : isTransientMsg m = true) :
    ∀ (keys : List String) (calls : ℕ) (lastE : Option String),
      (∀ k ∈ keys, jsTrim k ≠ "") →
      (rotateKeys op jitter keys calls lastE).outcome
          = .threw (if keys.isEmpty then lastE.getD allKeysFailedMsg else m)
      ∧ (rotateKeys op jitter keys calls lastE).calls = calls + 3 * keys.length
      ∧ (rotateKeys op jitter keys calls lastE).events = []
      ∧ (rotateKeys op jitter keys calls lastE).delays.length = 2 * keys.length
      ∧ ∀ d ∈ (rotateKeys op jitter keys calls lastE).delays, ∃ n, d = 2000 + jitter n := by
  intro keys
  induction keys with
  | nil => intro calls lastE _; simp [rotateKeys]
  | cons key rest ih =>
    intro calls lastE hk
    have hkey : jsTrim key ≠ "" := hk key (by simp)
    have hrest : ∀ k ∈ rest, jsTrim k ≠ "" := fun k hmem => hk k (by simp [hmem])
    have ht := tryKey_all_transient op jitter key m calls hop htr
    have ihr := ih (calls + 3) (some m) hrest
    simp only [rotateKeys, if_neg hkey, ht]
    rcases ihr with ⟨ho, hc, he, hd, hmem⟩
    refine ⟨?_, ?_, ?_, ?_, ?_⟩
    · rw [ho]
      rcases rest with _ | ⟨r, rs⟩ <;> simp
    · rw [hc]; simp; omega
    · rw [he]; simp
    · rw [List.length_append, hd]; simp; omega
    · intro d hd'
      rcases List.mem_append.mp hd' with h | h
      · simp only [List.mem_cons, List.not_mem_nil, or_false] at h
        rcases h with h | h
        · exact ⟨calls, h⟩
        · exact ⟨calls + 1, h⟩
      · exact hmem d h

/-- Rotation over a list of blank-only keys skips every key, never calls
the operation, and throws the recorded error or the aggregate message. -/
theorem rotateKeys_all_blank {α : Type} (op : ℕ → OpResult α) (jitter : ℕ → ℚ) :
    ∀ (keys : List String) (calls : ℕ) (lastE : Option String),
      (∀ k ∈ keys, jsTrim k = "") →
      rotateKeys op jitter keys calls lastE
        = ⟨.threw (lastE.getD allKeysFailedMsg), calls, [], []⟩ := by
  intro keys
  induction keys with
  | nil => intro calls lastE _; simp [rotateKeys]
  | cons key rest ih =>
    intro calls lastE hk
    have hkey : jsTrim key = "" := hk key (by simp)
    simp only [rotateKeys, if_pos hkey]
    exact ih calls lastE fun k hmem => hk k (by simp [hmem])

/-- Rotation after a prefix of quota failures: each of the first `k` keys
is called once, reported expired and rotated past; key `k` succeeds, is
reported active, and its value is returned with no backoff waits. -/
theorem rotateKeys_quota_prefix {α : Type} (op : ℕ → OpResult α) (jitter : ℕ → ℚ) (v : α) :
    ∀ (k : ℕ) (m : ℕ → String) (keys : List String) (calls : ℕ) (lastE : Option String)
      (_ : ∀ key ∈ keys, jsTrim key ≠ "") (hlt : k < keys.length)
      (_ : ∀ i, i < k → op (calls + i) = .err (m i))
      (_ : ∀ i, i < k → isTransientMsg (m i) = false ∧ isQuotaMsg (m i) = true)
      (_ : op (calls + k) = .ok v),
      rotateKeys op jitter keys calls lastE =
        ⟨.ok v, calls + k + 1,
          (keys.take k).map (fun key => (key, KeyStatus.expired))
            ++ [(keys.get ⟨k, hlt⟩, KeyStatus.active)],
          []⟩ := by
  intro k
  induction k with
  | zero =>
    intro m keys calls lastE hk hlt hq hqc hs
    rcases keys with _ | ⟨key, rest⟩
    · simp at hlt
    · have hkey : jsTrim key ≠ "" := hk key (by simp)
      have hs' : op calls = .ok v := by simpa using hs
      simp [rotateKeys, if_neg hkey, tryKey, hs']
  | succ k ih =>
    intro m keys calls lastE hk hlt hq hqc hs
    rcases keys with _ | ⟨key, rest⟩
    · simp at hlt
    · have hkey : jsTrim key ≠ "" := hk key (by simp)
      have h0 : op calls = .err (m 0) := by simpa using hq 0 (Nat.succ_pos k)
      have hc0 := hqc 0 (Nat.succ_pos k)
      have hrest : ∀ key ∈ rest, jsTrim key ≠ "" := fun x hmem => hk x (by simp [hmem])
      have hlt' : k < rest.length := by simpa using Nat.lt_of_succ_lt_succ hlt
      have ihr := ih (fun i => m (i + 1)) rest (calls + 1) (some (m 0)) hrest hlt'
        (fun i hi => by
          have := hq (i + 1) (Nat.succ_lt_succ hi)
          simpa [Nat.add_assoc, Nat.add_comm 1 i] using this)
        (fun i hi => hqc (i + 1) (Nat.succ_lt_succ hi))
        (by
          have := hs
          simpa [Nat.add_assoc, Nat.add_comm 1 k] using this)
      simp only [rotateKeys, if_neg hkey, tryKey, h0, hc0.1, hc0.2, Bool.false_eq_true,
        if_false, if_true, ihr]
      simp [List.take_succ_cons]
      omega

/-- Rotation after a prefix of quota failures ending in an unclassified
error: the error is rethrown at once, with one call on the failing key and
no status event for it. -/
theorem rotateKeys_quota_prefix_fatal {α : Type} (op : ℕ → OpResult α) (jitter : ℕ → ℚ)
    (mf : String) :
    ∀ (k : ℕ) (m : ℕ → String) (keys : List String) (calls : ℕ) (lastE : Option String)
      (_ : ∀ key ∈ keys, jsTrim key ≠ "") (_ : k < keys.length)
      (_ : ∀ i, i < k → op (calls + i) = .err (m i))
      (_ : ∀ i, i < k → isTransientMsg (m i) = false ∧ isQuotaMsg (m i) = true)
      (_ : op (calls + k) = .err mf)
      (_ : isTransientMsg mf = false) (_ : isQuotaMsg mf = false),
      rotateKeys op jitter keys calls lastE =
        ⟨.threw mf, calls + k + 1,
          (keys.take k).map (fun key => (key, KeyStatus.expired)), []⟩ := by
  intro k
  induction k with
  | zero =>
    intro m keys calls lastE hk hlt hq hqc hf htf hqf
    rcases keys with _ | ⟨key, rest⟩
    · simp at hlt
    · have hkey : jsTrim key ≠ "" := hk key (by simp)
      have hf' : op calls = .err mf := by simpa using hf
      simp [rotateKeys, if_neg hkey, tryKey, hf', htf, hqf]
  | succ k ih =>
    intro m keys calls lastE hk hlt hq hqc hf htf hqf
    rcases keys with _ | ⟨key, rest⟩
    · simp at hlt
    · have hkey : jsTrim key ≠ "" := hk key (by simp)
      have h0 : op calls = .err (m 0) := by simpa using hq 0 (Nat.succ_pos k)
      have hc0 := hqc 0 (Nat.succ_pos k)
      have hrest : ∀ key ∈ rest, jsTrim key ≠ "" := fun x hmem => hk x (by simp [hmem])
      have hlt' : k < rest.length := by simpa using Nat.lt_of_succ_lt_succ hlt
      have ihr := ih (fun i => m (i + 1)) rest (calls + 1) (some (m 0)) hrest hlt'
        (fun i hi => by
          have := hq (i + 1) (Nat.succ_lt_succ hi)
          simpa [Nat.add_assoc, Nat.add_comm 1 i] using this)
        (fun i hi => hqc (i + 1) (Nat.succ_lt_succ hi))
        (by
          have := hf
          simpa [Nat.add_assoc, Nat.add_comm 1 k] using this)
        htf hqf
      simp only [rotateKeys, if_neg hkey, tryKey, h0, hc0.1, hc0.2, Bool.false_eq_true,
        if_false, if_true, ihr]
      simp [List.take_succ_cons]
      omega

/-! ### Claim theorems: key rotation executor -/

/-- C1: on a transient-overload error the executor retries the same
credential up to a bound of 3 total attempts, waiting `2000 ms` plus up to
`1000 ms` of jitter between attempts, and advances only after the 3rd
consecutive transient failure.  Part 1: with a single credential and an
operation failing transient twice then succeeding, the operation runs
exactly 3 times, the key is reported active, the result is returned, and
both recorded backoff waits lie in `[2000, 3000)` ms.  Part 2: with any
non-empty list of usable credentials and an always-transient operation,
the operation runs exactly 3 times per credential with 2 waits per
credential and the executor finally fails, throwing the recorded error at
the all-keys-failed point. -/
theorem transient_retry_same_key :
    (∀ (α : Type) (key : String) (envKey : Option String) (op : ℕ → OpResult α)
        (jitter : ℕ → ℚ) (v : α) (m0 m1 : String),
      jsTrim key ≠ "" →
      op 0 = .err m0 → isTransientMsg m0 = true →
      op 1 = .err m1 → isTransientMsg m1 = true →
      op 2 = .ok v →
      (∀ n, 0 ≤ jitter n ∧ jitter n < 1000) →
      (executeWithKeyRotation [key] envKey op jitter).outcome = .ok v
      ∧ (executeWithKeyRotation [key] envKey op jitter).calls = 3
      ∧ (executeWithKeyRotation [key] envKey op jitter).events = [(key, .active)]
      ∧ (executeWithKeyRotation [key] envKey op jitter).delays
          = [2000 + jitter 0, 2000 + jitter 1]
      ∧ ∀ d ∈ (executeWithKeyRotation [key] envKey op jitter).delays,
          2000 ≤ d ∧ d < 3000)
    ∧
    (∀ (α : Type) (keys : List String) (envKey : Option String) (op : ℕ → OpResult α)
        (jitter : ℕ → ℚ) (m : String),
      keys ≠ [] → (∀ k ∈ keys, jsTrim k ≠ "") →
      (∀ n, op n = .err m) → isTransientMsg m = true →
      (∀ n, 0 ≤ jitter n ∧ jitter n < 1000) →
      (executeWithKeyRotation keys envKey op jitter).outcome = .threw m
      ∧ (executeWithKeyRotation keys envKey op jitter).calls = 3 * keys.length
      ∧ (executeWithKeyRotation keys envKey op jitter).events = []
      ∧ (executeWithKeyRotation keys envKey op jitter).delays.length = 2 * keys.length
      ∧ ∀ d ∈ (executeWithKeyRotation keys envKey op jitter).delays,
          2000 ≤ d ∧ d < 3000) := by
  constructor
  · intro α key envKey op jitter v m0 m1 hkey h0 ht0 h1 ht1 h2 hj
    have hrun : executeWithKeyRotation [key] envKey op jitter
        = rotateKeys op jitter [key] 0 none := by
      simp [executeWithKeyRotation]
    have hstep : rotateKeys op jitter [key] 0 none
        = ⟨.ok v, 3, [(key, .active)], [2000 + jitter 0, 2000 + jitter 1]⟩ := by
      simp [rotateKeys, if_neg hkey, tryKey, h0, ht0, h1, ht1, h2]
    rw [hrun, hstep]
    refine ⟨rfl, rfl, rfl, rfl, ?_⟩
    intro d hd
    simp only [List.mem_cons, List.not_mem_nil, or_false] at hd
    rcases hd with h | h <;> subst h
    · exact ⟨by linarith [(hj 0).1], by linarith [(hj 0).2]⟩
    · exact ⟨by linarith [(hj 1).1], by linarith [(hj 1).2]⟩
  · intro α keys envKey op jitter m hne hk hop htr hj
    obtain ⟨key, rest, rfl⟩ := List.exists_cons_of_ne_nil hne
    have hrun : executeWithKeyRotation (key :: rest) envKey op jitter
        = rotateKeys op jitter (key :: rest) 0 none := by
      simp [executeWithKeyRotation]
    obtain ⟨ho, hc, he, hd, hmem⟩ :=
      rotateKeys_all_transient op jitter m hop htr (key :: rest) 0 none hk
    rw [hrun]
    refine ⟨by simpa using ho, by simpa using hc, he, by simpa using hd, ?_⟩
    intro d hd'
    obtain ⟨n, rfl⟩ := hmem d hd'
    exact ⟨by linarith [(hj n).1], by linarith [(hj n).2]⟩

/-- C1 witness: a single credential "A", an operation failing with a 503
message twice then returning 7, and zero jitter: the executor returns 7
after exactly 3 invocations with two 2000 ms waits. -/
theorem transient_retry_same_key_witness :
    (executeWithKeyRotation ["A"] none
        (fun n => if n < 2 then .err "503 overloaded" else .ok (7 : ℕ))
        (fun _ => 0)).outcome = .ok 7
    ∧ (executeWithKeyRotation ["A"] none
        (fun n => if n < 2 then .err "503 overloaded" else .ok (7 : ℕ))
        (fun _ => 0)).calls = 3 := by
  have h := transient_retry_same_key.1 ℕ "A" none
    (fun n => if n < 2 then .err "503 overloaded" else .ok 7) (fun _ => 0) 7
    "503 overloaded" "503 overloaded" (by decide) rfl (by decide) rfl (by decide) rfl
    (fun n => by norm_num)
  exact ⟨h.1, h.2.1⟩

/-- C2: credentials are tried strictly in list order; a quota failure
reports the credential expired and rotates immediately with no retry and
no wait; the first succeeding credential is reported active and its result
returned.  After `k` quota failures the call count is exactly `k + 1`, and
the event trace is the first `k` keys expired, in order, then key `k`
active. -/
theorem quota_rotation_in_order (α : Type) (keys : List String) (envKey : Option String)
    (op : ℕ → OpResult α) (jitter : ℕ → ℚ) (v : α) (k : ℕ) (m : ℕ → String)
    (hk : ∀ key ∈ keys, jsTrim key ≠ "") (hlt : k < keys.length)
    (hq : ∀ i, i < k → op i = .err (m i))
    (hqc : ∀ i, i < k → isTransientMsg (m i) = false ∧ isQuotaMsg (m i) = true)
    (hs : op k = .ok v) :
    (executeWithKeyRotation keys envKey op jitter).outcome = .ok v
    ∧ (executeWithKeyRotation keys envKey op jitter).calls = k + 1
    ∧ (executeWithKeyRotation keys envKey op jitter).events
        = (keys.take k).map (fun key => (key, KeyStatus.expired))
          ++ [(keys.get ⟨k, hlt⟩, KeyStatus.active)]
    ∧ (executeWithKeyRotation keys envKey op jitter).delays = [] := by
  have hne : keys ≠ [] := by
    intro h; rw [h] at hlt; simp at hlt
  obtain ⟨key, rest, rfl⟩ := List.exists_cons_of_ne_nil hne
  have hrun : executeWithKeyRotation (key :: rest) envKey op jitter
      = rotateKeys op jitter (key :: rest) 0 none := by
    simp [executeWithKeyRotation]
  have := rotateKeys_quota_prefix op jitter v k m (key :: rest) 0 none hk hlt
    (fun i hi => by simpa using hq i hi) hqc (by simpa using hs)
  rw [hrun, this]
  exact ⟨rfl, by simp, rfl, rfl⟩

/-- C2 witness: credentials A, B, C with quota failures on A and B and
success 42 on C — exactly 3 calls, A and B expired, C active, 42
returned. -/
theorem quota_rotation_in_order_witness :
    (executeWithKeyRotation ["A", "B", "C"] none
        (fun n => if n < 2 then .err "429 quota" else .ok (42 : ℕ)) (fun _ => 0)).outcome
      = .ok 42
    ∧ (executeWithKeyRotation ["A", "B", "C"] none
        (fun n => if n < 2 then .err "429 quota" else .ok (42 : ℕ)) (fun _ => 0)).calls = 3
    ∧ (executeWithKeyRotation ["A", "B", "C"] none
        (fun n => if n < 2 then .err "429 quota" else .ok (42 : ℕ)) (fun _ => 0)).events
      = [("A", .expired), ("B", .expired), ("C", .active)] := by
  have hcls : isTransientMsg "429 quota" = false ∧ isQuotaMsg "429 quota" = true := by
    decide
  have h := quota_rotation_in_order ℕ ["A", "B", "C"] none
    (fun n => if n < 2 then .err "429 quota" else .ok 42) (fun _ => 0) 42 2
    (fun _ => "429 quota") (by decide) (by decide)
    (fun i hi => by interval_cases i <;> rfl)
    (fun i _ => hcls) rfl
  exact ⟨h.1, h.2.1, by simpa using h.2.2.1⟩

/-- C3: an error matching neither the transient nor the quota patterns is
rethrown on first occurrence: the failing credential is called once, no
further retry happens, no later credential is invoked, and no status
callback is made for the failing credential (stated after an arbitrary
prefix of `k` quota rotations; `k = 0` is the first credential). -/
theorem unclassified_error_propagates (α : Type) (keys : List String)
    (envKey : Option String) (op : ℕ → OpResult α) (jitter : ℕ → ℚ) (mf : String)
    (k : ℕ) (m : ℕ → String)
    (hk : ∀ key ∈ keys, jsTrim key ≠ "") (hlt : k < keys.length)
    (hq : ∀ i, i < k → op i = .err (m i))
    (hqc : ∀ i, i < k → isTransientMsg (m i) = false ∧ isQuotaMsg (m i) = true)
    (hf : op k = .err mf)
    (htf : isTransientMsg mf = false) (hqf : isQuotaMsg mf = false) :
    (executeWithKeyRotation keys envKey op jitter).outcome = .threw mf
    ∧ (executeWithKeyRotation keys envKey op jitter).calls = k + 1
    ∧ (executeWithKeyRotation keys envKey op jitter).events
        = (keys.take k).map (fun key => (key, KeyStatus.expired))
    ∧ (executeWithKeyRotation keys envKey op jitter).delays = [] := by
  have hne : keys ≠ [] := by
    intro h; rw [h] at hlt; simp at hlt
  obtain ⟨key, rest, rfl⟩ := List.exists_cons_of_ne_nil hne
  have hrun : executeWithKeyRotation (key :: rest) envKey op jitter
      = rotateKeys op jitter (key :: rest) 0 none := by
    simp [executeWithKeyRotation]
  have := rotateKeys_quota_prefix_fatal op jitter mf k m (key :: rest) 0 none hk hlt
    (fun i hi => by simpa using hq i hi) hqc (by simpa using hf) htf hqf
  rw [hrun, this]
  exact ⟨rfl, by simp, rfl, rfl⟩

/-- C3 witness: an unclassified error "boom" on the first of two
credentials propagates after exactly one call, with no events. -/
theorem unclassified_error_propagates_witness :
    (executeWithKeyRotation ["A", "B"] none
        (fun _ => OpResult.err "boom" (α := ℕ)) (fun _ => 0)).outcome = .threw "boom"
    ∧ (executeWithKeyRotation ["A", "B"] none
        (fun _ => OpResult.err "boom" (α := ℕ)) (fun _ => 0)).calls = 1
    ∧ (executeWithKeyRotation ["A", "B"] none
        (fun _ => OpResult.err "boom" (α := ℕ)) (fun _ => 0)).events = [] := by
  have h := unclassified_error_propagates ℕ ["A", "B"] none
    (fun _ => OpResult.err "boom") (fun _ => 0) "boom" 0 (fun _ => "")
    (by decide) (by decide) (fun i hi => absurd hi (Nat.not_lt_zero i))
    (fun i hi => absurd hi (Nat.not_lt_zero i)) rfl (by decide) (by decide)
  exact ⟨h.1, h.2.1, by simpa using h.2.2.1⟩

/-- C4 counterexample: a credential list containing only the whitespace
string "   " is NOT empty, so it passes the length check; every entry is
then skipped by the loop, no error is recorded, and the executor throws
the aggregate all-keys-failed error — not `NoCredentialsError` as the
claim states.  The operation and the status callback are never invoked. -/
theorem blank_keys_counterexample :
    (executeWithKeyRotation ["   "] none (fun _ => OpResult.ok (0 : ℕ))
        (fun _ => 0)).outcome = .threw allKeysFailedMsg
    ∧ (executeWithKeyRotation ["   "] none (fun _ => OpResult.ok (0 : ℕ))
        (fun _ => 0)).outcome ≠ .threw noCredentialsMsg
    ∧ (executeWithKeyRotation ["   "] none (fun _ => OpResult.ok (0 : ℕ))
        (fun _ => 0)).calls = 0
    ∧ (executeWithKeyRotation ["   "] none (fun _ => OpResult.ok (0 : ℕ))
        (fun _ => 0)).events = [] := by
  refine ⟨by decide, by decide, by decide, by decide⟩

/-- C4 amended: an empty credential list with no environment fallback
fails with `NoCredentialsError`; a non-empty list whose entries are all
whitespace-only passes the emptiness check, every entry is skipped, and
the executor fails with the aggregate all-keys-failed error instead.  In
both cases the operation and the status callback are never invoked. -/
theorem no_usable_credentials_amended :
    (∀ (α : Type) (op : ℕ → OpResult α) (jitter : ℕ → ℚ),
      executeWithKeyRotation [] none op jitter = ⟨.threw noCredentialsMsg, 0, [], []⟩)
    ∧ (∀ (α : Type) (keys : List String) (envKey : Option String)
        (op : ℕ → OpResult α) (jitter : ℕ → ℚ),
      keys ≠ [] → (∀ k ∈ keys, jsTrim k = "") →
      executeWithKeyRotation keys envKey op jitter
        = ⟨.threw allKeysFailedMsg, 0, [], []⟩) := by
  constructor
  · intro α op jitter
    simp [executeWithKeyRotation]
  · intro α keys envKey op jitter hne hk
    obtain ⟨key, rest, rfl⟩ := List.exists_cons_of_ne_nil hne
    have hrun : executeWithKeyRotation (key :: rest) envKey op jitter
        = rotateKeys op jitter (key :: rest) 0 none := by
      simp [executeWithKeyRotation]
    rw [hrun, rotateKeys_all_blank op jitter (key :: rest) 0 none hk]
    rfl

/-- C4 amended witness: the empty list and the list of two blank strings,
with a trivial operation. -/
theorem no_usable_credentials_amended_witness :
    executeWithKeyRotation [] none (fun _ => OpResult.ok (1 : ℕ)) (fun _ => 0)
      = ⟨.threw noCredentialsMsg, 0, [], []⟩
    ∧ executeWithKeyRotation [" ", "  "] none (fun _ => OpResult.ok (1 : ℕ)) (fun _ => 0)
      = ⟨.threw allKeysFailedMsg, 0, [], []⟩ :=
  ⟨no_usable_credentials_amended.1 ℕ (fun _ => OpResult.ok 1) (fun _ => 0),
    no_usable_credentials_amended.2 ℕ [" ", "  "] none (fun _ => OpResult.ok 1)
      (fun _ => 0) (by decide) (by decide)⟩

/-! ### Claim theorems: length inflation and structure rescaling -/

/-- Rounding to the nearest integer moves a value by at most one half. -/
theorem jsRound_close (x : ℚ) : |((jsRound x : ℤ) : ℚ) - x| ≤ 1 / 2 := by
  rw [jsRound, abs_le]
  constructor
  · linarith [Int.sub_one_lt_floor (x + 1 / 2)]
  · linarith [Int.floor_le (x + 1 / 2)]

/-- Summed rounding error over a list scaled by `s` is at most half the
list length. -/
theorem sum_jsRound_close (s : ℚ) :
    ∀ l : List ℚ,
      |(((l.map fun x => jsRound (x * s)).sum : ℤ) : ℚ) - l.sum * s|
        ≤ (l.length : ℚ) / 2 := by
  intro l
  induction l with
  | nil => simp
  | cons x xs ih =>
    have hx := jsRound_close (x * s)
    calc |(((List.map (fun x => jsRound (x * s)) (x :: xs)).sum : ℤ) : ℚ)
            - (x :: xs).sum * s|
        = |(((jsRound (x * s) : ℤ) : ℚ) - x * s)
            + ((((xs.map fun x => jsRound (x * s)).sum : ℤ) : ℚ) - xs.sum * s)| := by
          simp only [List.map_cons, List.sum_cons]
          push_cast
          congr 1
          ring
      _ ≤ |((jsRound (x * s) : ℤ) : ℚ) - x * s|
            + |(((xs.map fun x => jsRound (x * s)).sum : ℤ) : ℚ) - xs.sum * s| :=
          abs_add _ _
      _ ≤ 1 / 2 + (xs.length : ℚ) / 2 := add_le_add hx ih
      _ = ((x :: xs).length : ℚ) / 2 := by
          simp only [List.length_cons]
          push_cast
          ring

/-- With all-positive estimates, `rawStructureTotal` is the plain sum of
the sections' estimated word counts. -/
theorem rawStructureTotal_eq_sum (cs : WritingStructure)
    (h : ∀ sec ∈ cs.sections, 0 < sec.estimatedWords) :
    rawStructureTotal cs = (cs.sections.map fun sec => sec.estimatedWords).sum := by
  rw [rawStructureTotal]
  have : ∀ (l : List CustomSection) (a : ℚ), (∀ sec ∈ l, 0 < sec.estimatedWords) →
      l.foldl (fun sum sec => sum + jsOrNum sec.estimatedWords 100) a
        = a + (l.map fun sec => sec.estimatedWords).sum := by
    intro l
    induction l with
    | nil => intro a _; simp
    | cons sec rest ih =>
      intro a hl
      have hpos : sec.estimatedWords ≠ 0 := ne_of_gt (hl sec (by simp))
      have hrest : ∀ s ∈ rest, 0 < s.estimatedWords := fun s hmem => hl s (by simp [hmem])
      have hid : jsOrNum sec.estimatedWords 100 = sec.estimatedWords := by
        rw [jsOrNum, if_neg hpos]
      rw [List.foldl_cons, hid, ih (a + sec.estimatedWords) hrest, List.map_cons,
        List.sum_cons]
      ring
  rw [this cs.sections 0 h]
  ring

/-- C5: the inflated total target sent to the model is
`round(targetLength * f)` with `f = 1.1` at or below 800 words and
`f = 1.2` (current service) or `f = 1.3` (earlier revision) above 800 —
both within the specified 1.2-1.3 band; for every whole-number target of
at least 1 word the inflated target is at least the target (hence in
particular for 100, 800 and 2000); the factor is non-decreasing across
the 800-word boundary; and the inflated total is exactly the
`target_length` of the rendered generation payload. -/
theorem length_inflation_policy :
    (∀ t : ℚ, 0 < t →
      (t ≤ 800 → inflatedTotalTarget t = jsRound (t * (11 / 10))
        ∧ inflatedTotalTargetRev t = jsRound (t * (11 / 10)))
      ∧ (800 < t → inflatedTotalTarget t = jsRound (t * (12 / 10))
        ∧ inflatedTotalTargetRev t = jsRound (t * (13 / 10))
        ∧ 12 / 10 ≤ inflationFactor t ∧ inflationFactor t ≤ 13 / 10
        ∧ 12 / 10 ≤ inflationFactorRev t ∧ inflationFactorRev t ≤ 13 / 10))
    ∧ (∀ n : ℕ, 1 ≤ n →
      (n : ℚ) ≤ ((inflatedTotalTarget (n : ℚ) : ℤ) : ℚ)
      ∧ (n : ℚ) ≤ ((inflatedTotalTargetRev (n : ℚ) : ℤ) : ℚ))
    ∧ (∀ t₁ t₂ : ℚ, 0 < t₁ → t₁ ≤ 800 → 800 < t₂ →
      inflationFactor t₁ ≤ inflationFactor t₂
      ∧ inflationFactorRev t₁ ≤ inflationFactorRev t₂)
    ∧ (∀ (p : StyleProfile) (topic ct : String) (locs : List LocationSuggestion)
        (t c : ℚ) (cs : Option WritingStructure),
      (generationTaskDefinition p topic ct locs t c cs).input.target_length
        = inflatedTotalTarget t) := by
  refine ⟨?_, ?_, ?_, ?_⟩
  · intro t _
    constructor
    · intro hle
      have : ¬ t > 800 := not_lt.mpr hle
      simp [inflatedTotalTarget, inflatedTotalTargetRev, inflationFactor,
        inflationFactorRev, this]
    · intro hgt
      simp [inflatedTotalTarget, inflatedTotalTargetRev, inflationFactor,
        inflationFactorRev, hgt]
      norm_num
  · intro n h
    have hn : (0 : ℚ) ≤ (n : ℚ) := Nat.cast_nonneg n
    constructor
    · have hle : (n : ℤ) ≤ inflatedTotalTarget (n : ℚ) := by
        rw [inflatedTotalTarget, jsRound, Int.le_floor, inflationFactor]
        split <;> push_cast <;> linarith
      exact_mod_cast hle
    · have hle : (n : ℤ) ≤ inflatedTotalTargetRev (n : ℚ) := by
        rw [inflatedTotalTargetRev, jsRound, Int.le_floor, inflationFactorRev]
        split <;> push_cast <;> linarith
      exact_mod_cast hle
  · intro t₁ t₂ _ h₁ h₂
    have n₁ : ¬ t₁ > 800 := not_lt.mpr h₁
    constructor
    · simp [inflationFactor, n₁, h₂]
      norm_num
    · simp [inflationFactorRev, n₁, h₂]
      norm_num
  · intro p topic ct locs t c cs
    rfl

/-- C5 witness: at target 2000 the inflated totals are 2400 (current) and
2600 (earlier revision), both at least 2000, and the factor grows from
1.1 to 1.2 across the boundary from 800 to 801. -/
theorem length_inflation_policy_witness :
    (2000 : ℚ) ≤ ((inflatedTotalTarget (2000 : ℚ) : ℤ) : ℚ)
    ∧ (2000 : ℚ) ≤ ((inflatedTotalTargetRev (2000 : ℚ) : ℤ) : ℚ)
    ∧ inflationFactor 800 ≤ inflationFactor 801 := by
  have h2000 := length_inflation_policy.2.1 2000 (by norm_num)
  have hmono := length_inflation_policy.2.2.1 800 801 (by norm_num) (by norm_num)
    (by norm_num)
  refine ⟨by exact_mod_cast h2000.1, by exact_mod_cast h2000.2, hmono.1⟩

/-- C6 counterexample: a custom structure with raw estimates
[50, 200, 50] rescaled to an inflated target of 600 gets the scale
600/300 = 2 and the targets [100, 400, 100] — not [120, 480, 120] as the
claim states (those sum to 720, not 600). -/
theorem custom_rescale_counterexample :
    ((customBlueprint ⟨"s1", "Custom", [⟨"A", 50, "iA"⟩, ⟨"B", 200, "iB"⟩, ⟨"C", 50, "iC"⟩]⟩
        600).map fun b => b.target_words) = [100, 400, 100]
    ∧ ((customBlueprint ⟨"s1", "Custom", [⟨"A", 50, "iA"⟩, ⟨"B", 200, "iB"⟩, ⟨"C", 50, "iC"⟩]⟩
        600).map fun b => b.target_words) ≠ [120, 480, 120] := by
  have h : ((customBlueprint
      ⟨"s1", "Custom", [⟨"A", 50, "iA"⟩, ⟨"B", 200, "iB"⟩, ⟨"C", 50, "iC"⟩]⟩
      600).map fun b => b.target_words) = [100, 400, 100] := by
    norm_num [customBlueprint, customScale, rawStructureTotal, jsOrNum, jsRound]
  refine ⟨h, ?_⟩
  rw [h]
  decide

/-- C6 amended: for every custom structure with at least one section and
all-positive estimates, each rescaled target is within 1/2 of the exact
proportional share `estimate * inflated / rawTotal`, and the targets sum
to the inflated total within half a word per section; the example
[50, 200, 50] at inflated target 600 yields exactly [100, 400, 100]
(ratio 1:4:1, summing exactly to 600). -/
theorem custom_structure_rescaling_amended :
    (∀ (cs : WritingStructure) (inflated : ℤ),
      cs.sections ≠ [] →
      (∀ sec ∈ cs.sections, 0 < sec.estimatedWords) →
      (∀ sec ∈ cs.sections,
        |((jsRound (jsOrNum sec.estimatedWords 100 * customScale cs inflated) : ℤ) : ℚ)
          - sec.estimatedWords * (inflated : ℚ) / rawStructureTotal cs| ≤ 1 / 2)
      ∧ |((((customBlueprint cs inflated).map fun b => b.target_words).sum : ℤ) : ℚ)
          - (inflated : ℚ)| ≤ (cs.sections.length : ℚ) / 2)
    ∧ ((customBlueprint ⟨"s1", "Custom", [⟨"A", 50, "iA"⟩, ⟨"B", 200, "iB"⟩, ⟨"C", 50, "iC"⟩]⟩
        600).map fun b => b.target_words) = [100, 400, 100] := by
  constructor
  · intro cs inflated hne hpos
    have hsum := rawStructureTotal_eq_sum cs hpos
    have hT : 0 < rawStructureTotal cs := by
      rw [hsum]
      apply List.sum_pos
      · intro x hx
        obtain ⟨sec, hsec, rfl⟩ := List.mem_map.mp hx
        exact hpos sec hsec
      · simpa using hne
    have hscale : customScale cs inflated = (inflated : ℚ) / rawStructureTotal cs := by
      rw [customScale, if_pos hT]
    constructor
    · intro sec hsec
      have h0 : sec.estimatedWords ≠ 0 := ne_of_gt (hpos sec hsec)
      rw [hscale]
      have := jsRound_close (jsOrNum sec.estimatedWords 100
        * ((inflated : ℚ) / rawStructureTotal cs))
      simpa [jsOrNum, if_neg h0, mul_div_assoc] using this
    · have hmap : (customBlueprint cs inflated).map (fun b => b.target_words)
          = (cs.sections.map fun sec => sec.estimatedWords).map
              fun x => jsRound (x * customScale cs inflated) := by
        rw [customBlueprint, List.map_map, List.map_map]
        apply List.map_congr_left
        intro sec hsec
        have h0 : sec.estimatedWords ≠ 0 := ne_of_gt (hpos sec hsec)
        simp [jsOrNum, if_neg h0]
      have hlen : ((cs.sections.map fun sec => sec.estimatedWords).length : ℚ)
          = (cs.sections.length : ℚ) := by simp
      have hclose := sum_jsRound_close (customScale cs inflated)
        (cs.sections.map fun sec => sec.estimatedWords)
      rw [hlen] at hclose
      rw [hmap]
      have htot : (cs.sections.map fun sec => sec.estimatedWords).sum
          * customScale cs inflated = (inflated : ℚ) := by
        rw [hscale, ← hsum]
        field_simp
      rw [htot] at hclose
      exact hclose
  · norm_num [customBlueprint, customScale, rawStructureTotal, jsOrNum, jsRound]

/-- C6 amended witness: the [50, 200, 50] structure at inflated target
600 — every target within 1/2 of its proportional share and the sum within
3/2 of 600. -/
theorem custom_structure_rescaling_amended_witness :
    (∀ sec ∈ (⟨"s1", "Custom", [⟨"A", 50, "iA"⟩, ⟨"B", 200, "iB"⟩,
        ⟨"C", 50, "iC"⟩]⟩ : WritingStructure).sections,
      |((jsRound (jsOrNum sec.estimatedWords 100
          * customScale ⟨"s1", "Custom", [⟨"A", 50, "iA"⟩, ⟨"B", 200, "iB"⟩,
              ⟨"C", 50, "iC"⟩]⟩ 600) : ℤ) : ℚ)
        - sec.estimatedWords * ((600 : ℤ) : ℚ)
            / rawStructureTotal ⟨"s1", "Custom", [⟨"A", 50, "iA"⟩, ⟨"B", 200, "iB"⟩,
                ⟨"C", 50, "iC"⟩]⟩| ≤ 1 / 2)
    ∧ |((((customBlueprint ⟨"s1", "Custom", [⟨"A", 50, "iA"⟩, ⟨"B", 200, "iB"⟩,
          ⟨"C", 50, "iC"⟩]⟩ 600).map fun b => b.target_words).sum : ℤ) : ℚ)
        - ((600 : ℤ) : ℚ)|
      ≤ (((⟨"s1", "Custom", [⟨"A", 50, "iA"⟩, ⟨"B", 200, "iB"⟩,
          ⟨"C", 50, "iC"⟩]⟩ : WritingStructure).sections.length : ℚ)) / 2 := by
  have h := custom_structure_rescaling_amended.1
    ⟨"s1", "Custom", [⟨"A", 50, "iA"⟩, ⟨"B", 200, "iB"⟩, ⟨"C", 50, "iC"⟩]⟩ 600
    (by exact List.cons_ne_nil _ _)
    (by intro sec hsec; fin_cases hsec <;> norm_num)
  exact h

/-! ### Claim theorems: cognitive caging, optional-field defaults,
result post-processing, AUTO_DNA floor -/

/-- C7: two profiles that differ only in the six raw metric values produce
an identical generation task payload and an identical rendered prompt —
the raw metric numbers never reach the Generate payload; only the reduced
cognitive cage and the structural data do. -/
theorem metrics_hidden_from_generation :
    ∀ (p : StyleProfile) (m₁ m₂ : StyleMetrics) (topic ct : String)
      (locs : List LocationSuggestion) (t c : ℚ) (cs : Option WritingStructure),
      generationTaskDefinition { p with metrics := m₁ } topic ct locs t c cs
        = generationTaskDefinition { p with metrics := m₂ } topic ct locs t c cs
      ∧ generationPrompt { p with metrics := m₁ } topic ct locs t c cs
        = generationPrompt { p with metrics := m₂ } topic ct locs t c cs := by
  intro p m₁ m₂ topic ct locs t c cs
  exact ⟨rfl, rfl⟩

/-- Metrics with every dial at the midpoint. -/
def neutralMetrics : StyleMetrics :=
  ⟨50, 50, 50, 50, 50, 50⟩

/-- A profile whose optional forensic fields are all absent. -/
def minimalProfile : StyleProfile :=
  { id := "min", name := "Minimal", description := "legacy profile",
    metrics := neutralMetrics, signaturePhrases := none, toneDescription := "flat",
    structurePattern := "Linear", typicalSectionLength := 100,
    contentType := "general", styleDNA := none, styleSamples := none,
    quantitativeAnalysis := none, structuralPatterns := none,
    decisionProfile := none, moralCompass := none }

/-- C8: with `styleDNA`, `structuralPatterns`, `decisionProfile`,
`moralCompass`, `quantitativeAnalysis` and `signaturePhrases` all absent,
prompt construction is still defined everywhere: the cognitive cage takes
exactly the documented defaults ("Neutral" world view, "None" blind spots
and verbal tics, "Balanced" biases, "Standard" thinking style and
intro/outro habits, empty vocabulary and anchor lists), the missing
quantitative skeleton selects the fallback single-section blueprint, and
the Refine prompt's verbal-tics slot renders (as "undefined", the JS
interpolation of the absent optional chain) without failing. -/
theorem optional_fields_defaulted (p : StyleProfile) (inflated : ℤ)
    (h1 : p.styleDNA = none) (h2 : p.structuralPatterns = none)
    (h3 : p.decisionProfile = none) (h4 : p.moralCompass = none)
    (h5 : p.quantitativeAnalysis = none) (h6 : p.signaturePhrases = none) :
    cognitiveCage p = ⟨"Neutral", "None", "Balanced", "Standard", "None", [],
      "Standard", "Standard", [], []⟩
    ∧ structureSetup p none inflated = ⟨"AUTO_DNA", false, fallbackBlueprint inflated⟩
    ∧ refineVerbalTics p = "undefined" := by
  refine ⟨?_, ?_, ?_⟩
  · simp [cognitiveCage, h1, h2, h3, h4, h6, jsOrStr, jsOrList]
  · simp [structureSetup, h5]
  · simp [refineVerbalTics, h1, jsUndef]

/-- C8 witness: the concrete minimal profile at inflated target 275. -/
theorem optional_fields_defaulted_witness :
    cognitiveCage minimalProfile = ⟨"Neutral", "None", "Balanced", "Standard", "None",
      [], "Standard", "Standard", [], []⟩
    ∧ structureSetup minimalProfile none 275 = ⟨"AUTO_DNA", false, fallbackBlueprint 275⟩
    ∧ refineVerbalTics minimalProfile = "undefined" :=
  optional_fields_defaulted minimalProfile 275 rfl rfl rfl rfl rfl rfl

/-- C9 counterexample: when the model response is empty or missing, Refine
returns the caller's original input text, which varies with the input — it
is not a fixed fallback value as the claim states (Generate's sentinel is
fixed; Refine's is not). -/
theorem refine_fallback_counterexample :
    refineResult none "first draft" = "first draft"
    ∧ refineResult none "another text" = "another text"
    ∧ ("first draft" : String) ≠ "another text"
    ∧ generateResult none = "Failed to generate script." := by
  exact ⟨rfl, rfl, by decide, rfl⟩

/-- C9 amended: Generate returns the model text unchanged (no trimming)
and yields the fixed sentinel "Failed to generate script." when the text
is empty or missing; Refine returns the trimmed model text and falls back
to the caller's original input (not a fixed sentinel) when the text is
empty or missing; neither raises an error. -/
theorem generate_refine_results_amended (s orig : String) (hs : s ≠ "") :
    generateResult (some s) = s
    ∧ refineResult (some s) orig = jsTrim s
    ∧ generateResult none = "Failed to generate script."
    ∧ generateResult (some "") = "Failed to generate script."
    ∧ refineResult none orig = orig
    ∧ refineResult (some "") orig = orig := by
  refine ⟨?_, ?_, rfl, rfl, rfl, rfl⟩
  · simp [generateResult, jsOrStr, hs]
  · simp [refineResult, hs]

/-- C9 amended witness: untrimmed text "  hello  " is returned whole by
Generate and trimmed by Refine; empty responses select the respective
fallbacks. -/
theorem generate_refine_results_amended_witness :
    generateResult (some "  hello  ") = "  hello  "
    ∧ refineResult (some "  hello  ") "draft" = jsTrim "  hello  "
    ∧ generateResult none = "Failed to generate script."
    ∧ generateResult (some "") = "Failed to generate script."
    ∧ refineResult none "draft" = "draft"
    ∧ refineResult (some "") "draft" = "draft" :=
  generate_refine_results_amended "  hello  " "draft" (by decide)

/-- A quantitative analysis whose skeleton has three small 10-word
sections out of a 1000-word original. -/
def qaSmallSections : QuantitativeAnalysis :=
  ⟨1000, 12, 80, 60, "None", [⟨"s1", 10, "p1"⟩, ⟨"s2", 10, "p2"⟩, ⟨"s3", 10, "p3"⟩]⟩

/-- A quantitative analysis whose skeleton is one tiny and one huge
section (1:99 ratio) out of a 1000-word original. -/
def qaSkewSections : QuantitativeAnalysis :=
  ⟨1000, 12, 80, 60, "None", [⟨"intro", 10, "hook"⟩, ⟨"body", 990, "argue"⟩]⟩

/-- A profile carrying a given quantitative structure skeleton. -/
def profileWithQa (qa : QuantitativeAnalysis) : StyleProfile :=
  { minimalProfile with quantitativeAnalysis := some qa }

/-- C10: in AUTO_DNA mode every blueprint section gets a target of at
least 50 words; consequently with the three-small-section skeleton at
requested length 100 (inflated target 110) the summed targets are 150,
exceeding the inflated total, and with the 10/990 skeleton the targets
[50, 109] no longer stand in the skeleton's 1:99 proportion. -/
theorem auto_dna_min_50_floor :
    (∀ (p : StyleProfile) (qa : QuantitativeAnalysis) (inflated : ℤ),
      p.quantitativeAnalysis = some qa →
      ∀ b ∈ (structureSetup p none inflated).blueprint, 50 ≤ b.target_words)
    ∧ (((structureSetup (profileWithQa qaSmallSections) none
          (inflatedTotalTarget 100)).blueprint.map fun b => b.target_words).sum
        > inflatedTotalTarget 100)
    ∧ ((structureSetup (profileWithQa qaSkewSections) none
          (inflatedTotalTarget 100)).blueprint.map fun b => b.target_words) = [50, 109]
    ∧ (50 : ℤ) * 990 ≠ 109 * 10 := by
  refine ⟨?_, ?_, ?_, by decide⟩
  · intro p qa inflated h b hb
    simp only [structureSetup, h, autoBlueprint] at hb
    obtain ⟨sec, _, rfl⟩ := List.mem_map.mp hb
    exact le_max_left _ _
  · norm_num [structureSetup, profileWithQa, minimalProfile, qaSmallSections,
      autoBlueprint, inflatedTotalTarget, inflationFactor, jsOrNum, jsRound]
  · norm_num [structureSetup, profileWithQa, minimalProfile, qaSkewSections,
      autoBlueprint, inflatedTotalTarget, inflationFactor, jsOrNum, jsRound]

/-- C10 witness: the floor bound applied at the skewed skeleton's first
blueprint entry. -/
theorem auto_dna_min_50_floor_witness :
    50 ≤ (⟨"intro", some "intro", 50, none, some "hook"⟩ : BlueprintSection).target_words := by
  have hmem : (⟨"intro", some "intro", 50, none, some "hook"⟩ : BlueprintSection)
      ∈ (structureSetup (profileWithQa qaSkewSections) none
          (inflatedTotalTarget 100)).blueprint := by
    have h110 : inflatedTotalTarget 100 = 110 := by
      norm_num [inflatedTotalTarget, inflationFactor, jsRound]
    rw [h110]
    have : (structureSetup (profileWithQa qaSkewSections) none 110).blueprint
        = [⟨"intro", some "intro", 50, none, some "hook"⟩,
           ⟨"body", some "body", 109, none, some "argue"⟩] := by
      norm_num [structureSetup, profileWithQa, minimalProfile, qaSkewSections,
        autoBlueprint, jsOrNum, jsRound]
    rw [this]
    simp
  exact auto_dna_min_50_floor.1 (profileWithQa qaSkewSections) qaSkewSections
    (inflatedTotalTarget 100) rfl _ hmem

end StyleMimic
